import Mathlib

/-!
Verification development for the dolar-caro-be repository.

The Python sources are shallowly embedded: SQLAlchemy rows become Lean
structures, the session/commit/rollback discipline of `DatabaseManager`
becomes explicit state passing over a `DBState`, monetary values become
rationals, timestamps become natural numbers (minutes), and every external
effect (HTTP fetch, browser navigation, selector waits, regex sweeps over
rendered page content) becomes an explicit input describing that effect's
outcome.  Fallible Python code is embedded with `Except`; Python
`TypeError`/`AttributeError` raised by keyword-argument binding and
attribute lookup are embedded by checking the literal parameter/attribute
name lists copied from the source.
-/

/- ## Data model (src/models.py) -/

/-- Embeds `models.Country`: id, name, unique 2-letter code, home currency. -/
structure Country where
  id : Nat
  name : String
  code : String
  currency : String
deriving DecidableEq, Repr

/-- Embeds `models.Product` (the fields the service layer reads: `id`, `name`;
brand/model/category/description/url_template are never consulted by the
operations under verification and are omitted). -/
structure Product where
  id : Nat
  name : String
deriving DecidableEq, Repr

/-- Embeds `models.Source`: id, name, type string, optional url/description. -/
structure Source where
  id : Nat
  name : String
  type : String
  url : Option String
  description : Option String
deriving DecidableEq, Repr

/-- Embeds `models.Price`.  These are exactly the mapped columns of the
`prices` table: the model defines NO `description` and NO `image_url`
column (this fact is load-bearing for the history-query claim). -/
structure Price where
  id : Nat
  product_id : Nat
  country_id : Nat
  source_id : Nat
  value : ℚ
  currency : String
  date_obtained : Nat
  is_fallback : Bool
  exchange_rate : Option ℚ
  usd_value : Option ℚ
deriving DecidableEq, Repr

/-- Embeds `models.ExchangeRate`. -/
structure ExchangeRateRow where
  id : Nat
  from_currency : String
  to_currency : String
  rate : ℚ
  source : Option String
  date : Nat
deriving DecidableEq, Repr

/-- Embeds `models.ScraperRun`. -/
structure ScraperRun where
  id : Nat
  scraper_name : String
  start_time : Nat
  end_time : Option Nat
  success : Option Bool
  error_message : Option String
  products_scraped : Nat
deriving DecidableEq, Repr

/-- The relational store: one list per table. -/
structure DBState where
  countries : List Country
  products : List Product
  sources : List Source
  prices : List Price
  rates : List ExchangeRateRow
  runs : List ScraperRun
deriving DecidableEq, Repr

/-- Python exception outcomes surfaced by the embedded operations. -/
inductive PyErr where
  | typeError
  | attributeError
  | valueError
  | invalidProduct
deriving DecidableEq, Repr

/- ## DatabaseManager operations (src/db_manager.py)

The `with DatabaseManager(...) as db:` discipline (`__enter__`/`__exit__`)
is embedded by threading the session's working state explicitly and, at
block or error exit, either committing (the working state becomes the new
durable state) or rolling back (the durable state passed into the block is
returned unchanged).  `session.flush()` makes a row visible inside the
working state only; durability comes solely from the commit in `__exit__`. -/

/-- Embeds the `session.query(Country).filter_by(code=...).first()` lookups. -/
def findCountryByCode (db : DBState) (code : String) : Option Country :=
  db.countries.find? (fun c => c.code == code)

/-- Embeds `session.query(Country).filter_by(id=...).first()`. -/
def findCountryById (db : DBState) (cid : Nat) : Option Country :=
  db.countries.find? (fun c => c.id == cid)

/-- Embeds `session.query(Product).filter_by(name=...).first()`. -/
def findProductByName (db : DBState) (name : String) : Option Product :=
  db.products.find? (fun p => p.name == name)

/-- Embeds `session.query(Product).filter_by(id=...).first()`. -/
def findProductById (db : DBState) (pid : Nat) : Option Product :=
  db.products.find? (fun p => p.id == pid)

/-- Fresh autoincrement id for a table, as max existing id + 1. -/
def freshId (ids : List Nat) : Nat :=
  (ids.foldl max 0) + 1

/-- Embeds `DatabaseManager.get_or_create_source`: lookup by (name, type),
lazily creating and flushing the row when absent. -/
def get_or_create_source (db : DBState) (name type_str : String)
    (url description : Option String) : Source × DBState :=
  match db.sources.find? (fun s => s.name == name && s.type == type_str) with
  | some s => (s, db)
  | none =>
      let s : Source :=
        { id := freshId (db.sources.map Source.id), name := name,
          type := type_str, url := url, description := description }
      (s, { db with sources := db.sources ++ [s] })

/-- Embeds `DatabaseManager.add_exchange_rate`: appends a timestamped rate row. -/
def add_exchange_rate (db : DBState) (from_currency to_currency : String)
    (rate : ℚ) (source : Option String) (now : Nat) : ExchangeRateRow × DBState :=
  let row : ExchangeRateRow :=
    { id := freshId (db.rates.map ExchangeRateRow.id),
      from_currency := from_currency, to_currency := to_currency,
      rate := rate, source := source, date := now }
  (row, { db with rates := db.rates ++ [row] })

/-- Embeds `DatabaseManager.add_price` (its REAL parameter list is recorded
separately in `add_price_param_names`): builds a Price row with
`date_obtained = now` and flushes it. -/
def add_price (db : DBState) (product_id country_id source_id : Nat)
    (value : ℚ) (currency : String) (is_fallback : Bool)
    (exchange_rate usd_value : Option ℚ) (now : Nat) : Price × DBState :=
  let p : Price :=
    { id := freshId (db.prices.map Price.id),
      product_id := product_id, country_id := country_id,
      source_id := source_id, value := value, currency := currency,
      date_obtained := now, is_fallback := is_fallback,
      exchange_rate := exchange_rate, usd_value := usd_value }
  (p, { db with prices := db.prices ++ [p] })

/-- Embeds `DatabaseManager.start_scraper_run`: inserts a run row with
`success = None`. -/
def start_scraper_run (db : DBState) (scraper_name : String) (now : Nat) :
    ScraperRun × DBState :=
  let run : ScraperRun :=
    { id := freshId (db.runs.map ScraperRun.id), scraper_name := scraper_name,
      start_time := now, end_time := none, success := none,
      error_message := none, products_scraped := 0 }
  (run, { db with runs := db.runs ++ [run] })

/-- Embeds `DatabaseManager.finish_scraper_run`: updates the run row in the
session's working state (flush only — durability still requires the commit
in `__exit__`). -/
def finish_scraper_run (db : DBState) (run_id : Nat) (success : Bool)
    (products_scraped : Nat) (error_message : Option String) (now : Nat) : DBState :=
  { db with
    runs := db.runs.map (fun r =>
      if r.id == run_id then
        { r with end_time := some now, success := some success,
                 products_scraped := products_scraped,
                 error_message := error_message }
      else r) }

/- ## Exchange Rate Provider (src/services.py get_exchange_rate /
     get_exchange_rate_sync, src/scrapers.py get_dolar_price)

The HTTP GET to dolarapi and the database persist are external effects;
their outcomes are inputs: `fetch` is the parsed `data["venta"]` value or
the exception raised anywhere in fetching/parsing, and `persistOk` is
whether the nested `with DatabaseManager` block (source get-or-create,
rate insert, commit) completes without raising.  Both `get_exchange_rate`
and `get_exchange_rate_sync` have this exact body in the source. -/

/-- Embeds `PriceService.get_exchange_rate` (and its line-identical sync
variant): on any failure of the fetch or of the persisting session the
`except Exception` handler returns the hardcoded default `1375.0`; the
session that failed was rolled back, so the store is unchanged.  On full
success the fetched rate is persisted (source row lazily created, rate row
appended) and returned. -/
def get_exchange_rate (db : DBState) (fetch : Except String ℚ)
    (persistOk : Bool) (now : Nat) : ℚ × DBState :=
  match fetch with
  | .error _ => (1375, db)
  | .ok rate =>
      if persistOk then
        let (_src, db1) :=
          get_or_create_source db "DolarApi" "api" (some "https://dolarapi.com") none
        let (_row, db2) := add_exchange_rate db1 "ARS" "USD" rate (some "DolarApi") now
        (rate, db2)
      else
        (1375, db)

/-- Embeds the legacy `scrapers.get_dolar_price`: same fetch, but the
hardcoded default on failure is `1000`, and nothing is ever persisted. -/
def get_dolar_price (fetch : Except String ℚ) : ℚ :=
  match fetch with
  | .ok v => v
  | .error _ => 1000

/- ## Price Extractor (src/scrapers.py lines 69-119, AR path of
     scrape_nike_airforce_prices)

A loaded page is an external artifact; its observable outcomes are inputs:
for each selector in order, either the 5s wait timed out / no element was
found (`none`) or an element was present with a given `inner_text`
(`some text`); for each content regex pattern in order, either it had no
match (`none`) or its first match group was a given string (`some m`).
The numeric parsing applied to those strings is embedded concretely. -/

/-- Value of a digit string, as built by the source's
`float(''.join(re.findall(r'\d+', price_text)))`. -/
def digitsToNat (cs : List Char) : Nat :=
  cs.foldl (fun a c => 10 * a + (c.toNat - 48)) 0

/-- Embeds the selector-stage parse: `re.findall(r'\d+', price_text)` then
`''.join` then `float(...)` — i.e. concatenate every digit character of the
text; the parse succeeds iff at least one digit is present. -/
def parseSelectorText (t : String) : Option ℚ :=
  let ds := t.data.filter Char.isDigit
  if ds.isEmpty then none else some (digitsToNat ds)

/-- Embeds the selector loop (src/scrapers.py lines 69-88): a timeout or a
missing element advances to the next selector; an element whose text
contains digits sets the price and breaks; an element whose text has no
digits falls through to the next selector. -/
def selectorLoop : List (Option String) → Option ℚ
  | [] => none
  | none :: rest => selectorLoop rest
  | some t :: rest =>
      match parseSelectorText t with
      | some v => some v
      | none => selectorLoop rest

/-- Embeds the content-pattern loop (src/scrapers.py lines 96-112): for the
first pattern with a match, `re.sub(r'[.,]', '', matches[0])` strips dots
and commas; if the cleaned string `.isdigit()` the price is set and the
loop breaks, otherwise the next pattern is tried. -/
def contentLoop : List (Option String) → Option ℚ
  | [] => none
  | none :: rest => contentLoop rest
  | some m :: rest =>
      let cleaned := m.data.filter (fun c => c ≠ '.' ∧ c ≠ ',')
      if !cleaned.isEmpty && cleaned.all Char.isDigit then
        some (digitsToNat cleaned)
      else contentLoop rest

/-- Python truthiness of the `ar_price` variable (`None` and `0.0` are
falsy), as tested by the source's `if not ar_price:` guards. -/
def pyFalsy : Option ℚ → Bool
  | none => true
  | some v => v == 0

/-- Outcomes of one Argentina page visit: whether the navigation/context
phase raised, what each selector attempt observed, and what each content
pattern matched. -/
structure ArPage where
  navOk : Bool
  selTexts : List (Option String)
  patternMatches : List (Option String)
deriving DecidableEq, Repr

/-- Result of the legacy AR scrape: the final `ar_price` and whether the
content-regex stage (stage 2) was attempted. -/
structure ArScrapeResult where
  price : ℚ
  stage2Attempted : Bool
deriving DecidableEq, Repr

/-- Embeds the Argentina block of `scrape_nike_airforce_prices`
(src/scrapers.py lines 19-122): on a navigation exception `ar_price` is set
to `250000`; otherwise the selector loop runs, then — only when `ar_price`
is still falsy — the content-pattern loop, then the falsy check substitutes
the static `199999` fallback. -/
def scrape_nike_airforce_ar (page : ArPage) : ArScrapeResult :=
  if page.navOk then
    let p1 := selectorLoop page.selTexts
    let attempt2 := pyFalsy p1
    let p2 :=
      if attempt2 then
        match contentLoop page.patternMatches with
        | some v => some v
        | none => p1
      else p1
    let final : ℚ :=
      match p2 with
      | none => 199999
      | some v => if v == 0 then 199999 else v
    { price := final, stage2Attempted := attempt2 }
  else
    { price := 250000, stage2Attempted := false }

/- ## Product Scraper (src/scrapers/nike_scraper.py)

`NikeScraper._scrape_argentina` delegates its selector stage to
`BaseScraper.extract_price_with_selectors`. -/

/-- Modelled from the spec: `src/scrapers/base_scraper.py` (class
`BaseScraper`, method `extract_price_with_selectors`) is imported by both
product scrapers but is not under src/.  Spec §4.2 stage 1: for each
selector in the ordered list, wait briefly for its presence; on presence
read its text, strip non-digit characters, and if a numeric parse succeeds
return it immediately; a selector timeout is not fatal — proceed to the
next selector.  This is the same algorithm as the in-source selector loop
of src/scrapers.py. -/
def extract_price_with_selectors (selTexts : List (Option String)) : Option ℚ :=
  selectorLoop selTexts

/-- Nike static fallback table entry `fallback_prices['air_force_1']['AR']`. -/
def nike_fallback_AR : ℚ := 199999

/-- Nike static fallback table entry `fallback_prices['air_force_1']['US']`. -/
def nike_fallback_US : ℚ := 110

/-- Embeds `NikeScraper._scrape_argentina` (src/scrapers/nike_scraper.py
lines 55-132): on a navigation/context exception the caught handler leaves
`price = None`; otherwise the selector stage runs, then — when `price` is
falsy — the content-pattern stage; finally `if not price:` substitutes the
scraper's configured `fallback_price`. -/
def nike_scrape_argentina (page : ArPage) (fallback_price : ℚ) : ℚ :=
  let price0 : Option ℚ :=
    if page.navOk then
      let p1 := extract_price_with_selectors page.selTexts
      if pyFalsy p1 then
        match contentLoop page.patternMatches with
        | some v => some v
        | none => p1
      else p1
    else none
  match price0 with
  | none => fallback_price
  | some v => if v == 0 then fallback_price else v

/-- All three extraction stages fail for the Argentina page: either the
navigation itself raised, or no selector parsed and no content pattern
produced a digit string. -/
def totalExtractionFailure (page : ArPage) : Bool :=
  !page.navOk ||
    ((extract_price_with_selectors page.selTexts).isNone &&
      (contentLoop page.patternMatches).isNone)

/- ## US paths and the Adidas scraper (src/scrapers/nike_scraper.py
     _scrape_us, src/scrapers/adidas_scraper.py)

The US methods run the selector stage, then — when the price is still
falsy — an in-page script evaluation whose probe returns a string or null
(`page.evaluate(...)`), parsed with `re.search(r'\$\s*(\d+(?:\.\d+)?)',
price_js)`.  That regex is embedded concretely below.  The Adidas methods
have the same bodies as the Nike ones up to URLs/cookies/selector lists
and the probed global object, so each is embedded as its own definition
over the same page-outcome inputs. -/

/-- The number part of the US price regex after a matched dollar sign:
skip whitespace, require at least one digit, then an optional fractional
group `(?:\.\d+)?` (a dot not followed by a digit is left unmatched). -/
def dollarNumAfter (cs : List Char) : Option ℚ :=
  let cs1 := cs.dropWhile Char.isWhitespace
  let intDs := cs1.takeWhile Char.isDigit
  if intDs.isEmpty then none
  else
    match cs1.dropWhile Char.isDigit with
    | '.' :: rest2 =>
        let fracDs := rest2.takeWhile Char.isDigit
        if fracDs.isEmpty then some (digitsToNat intDs)
        else some ((digitsToNat intDs : ℚ)
          + (digitsToNat fracDs : ℚ) / (10 : ℚ) ^ fracDs.length)
    | _ => some (digitsToNat intDs)

/-- Embeds `re.search(r'\$\s*(\d+(?:\.\d+)?)', s)`: scan for the first
dollar sign whose tail yields a number; a dollar sign with no number after
it resumes the scan at the next position. -/
def searchDollarPrice : List Char → Option ℚ
  | [] => none
  | c :: rest =>
      if c = '$' then
        match dollarNumAfter rest with
        | some v => some v
        | none => searchDollarPrice rest
      else searchDollarPrice rest

/-- The dollar-price parse applied to a matched text. -/
def parseUsPriceText (t : String) : Option ℚ :=
  searchDollarPrice t.data

/-- Outcomes of one US page visit: whether the navigation/context phase
raised, what each selector attempt observed, and what the in-page script
evaluation returned (`none` covers the probe returning null or an empty
string — both falsy under `if price_js:` — and the evaluation raising,
which is caught). -/
structure UsPage where
  navOk : Bool
  selTexts : List (Option String)
  jsEval : Option String
deriving DecidableEq, Repr

/-- Embeds `NikeScraper._scrape_us` (src/scrapers/nike_scraper.py lines
134-231): on a navigation/context exception the caught handler leaves
`price = None`; otherwise the selector stage runs, then — when `price` is
falsy — the script-evaluation stage parses the probe's result with the
dollar-price regex; finally `if not price:` substitutes the scraper's
configured `fallback_price`. -/
def nike_scrape_us (page : UsPage) (fallback_price : ℚ) : ℚ :=
  let price0 : Option ℚ :=
    if page.navOk then
      let p1 := extract_price_with_selectors page.selTexts
      if pyFalsy p1 then
        match page.jsEval with
        | some js =>
            (match parseUsPriceText js with
             | some v => some v
             | none => p1)
        | none => p1
      else p1
    else none
  match price0 with
  | none => fallback_price
  | some v => if v == 0 then fallback_price else v

/-- Adidas static fallback table entry
`fallback_prices['argentina_jersey']['AR']`. -/
def adidas_fallback_AR : ℚ := 149999

/-- Adidas static fallback table entry
`fallback_prices['argentina_jersey']['US']`. -/
def adidas_fallback_US : ℚ := 100

/-- Embeds `AdidasScraper._scrape_argentina` (src/scrapers/adidas_scraper.py
lines 55-143): selector stage, then — when the price is falsy — the same
four content patterns with the same dot/comma stripping and `.isdigit()`
check as the Nike method, then the configured fallback. -/
def adidas_scrape_argentina (page : ArPage) (fallback_price : ℚ) : ℚ :=
  let price0 : Option ℚ :=
    if page.navOk then
      let p1 := extract_price_with_selectors page.selTexts
      if pyFalsy p1 then
        match contentLoop page.patternMatches with
        | some v => some v
        | none => p1
      else p1
    else none
  match price0 with
  | none => fallback_price
  | some v => if v == 0 then fallback_price else v

/-- Embeds `AdidasScraper._scrape_us` (src/scrapers/adidas_scraper.py lines
145-247): selector stage, then — when the price is falsy — a script
evaluation (probing `window.adobeDataLayer` instead of Nike's
`__PRELOADED_STATE__`, an external outcome either way) parsed with the
same dollar-price regex, then the configured fallback. -/
def adidas_scrape_us (page : UsPage) (fallback_price : ℚ) : ℚ :=
  let price0 : Option ℚ :=
    if page.navOk then
      let p1 := extract_price_with_selectors page.selTexts
      if pyFalsy p1 then
        match page.jsEval with
        | some js =>
            (match parseUsPriceText js with
             | some v => some v
             | none => p1)
        | none => p1
      else p1
    else none
  match price0 with
  | none => fallback_price
  | some v => if v == 0 then fallback_price else v

/-- The script-evaluation stage fails: the probe returned null/empty (or
raised), or its result contains no dollar-prefixed number. -/
def jsStageFails (jsEval : Option String) : Bool :=
  match jsEval with
  | none => true
  | some js => (parseUsPriceText js).isNone

/-- All extraction stages fail for a US page: either the navigation raised,
or no selector parsed and the script evaluation produced nothing parseable. -/
def totalUsExtractionFailure (page : UsPage) : Bool :=
  !page.navOk ||
    ((extract_price_with_selectors page.selTexts).isNone && jsStageFails page.jsEval)

/- ## Price Reconciliation Service (src/services.py scrape_nike_prices /
     scrape_adidas_prices)

Both functions have the same body up to the scraper object, product name,
source row and fallback table; that common body is embedded once and
instantiated twice.  The scraper invocation and the exchange-rate fetch
are external effects passed as inputs: `scrapeRes` is the scraper's result
dict or the exception it raised, `rate` is the value returned by
`get_exchange_rate` (which never raises).  The `with DatabaseManager`
block commits the working state on normal exit and rolls it back on an
exception (`DatabaseManager.__exit__`, src/db_manager.py lines 22-34). -/

/-- The scraper result dict consumed by the service (`ar_price`, `us_price`;
the URL fields are not consulted by any claim). -/
structure ScrapeResult where
  ar_price : ℚ
  us_price : ℚ
deriving DecidableEq, Repr

/-- Embeds `NikeScraper.scrape` (src/scrapers/nike_scraper.py lines 29-53):
an unknown product key raises `ValueError`; otherwise the Argentina and US
scrapes run with the key's fallback table entries and the result dict is
returned.  `air_force_1` is the only key in the scraper's URL table. -/
def nike_scraper_scrape (product_key : String) (arPage : ArPage)
    (usPage : UsPage) : Except String ScrapeResult :=
  if product_key == "air_force_1" then
    .ok { ar_price := nike_scrape_argentina arPage nike_fallback_AR,
          us_price := nike_scrape_us usPage nike_fallback_US }
  else
    .error "ValueError: Unknown product key"

/-- Embeds `AdidasScraper.scrape` (src/scrapers/adidas_scraper.py lines
29-52); `argentina_jersey` is the only key in the scraper's URL table. -/
def adidas_scraper_scrape (product_key : String) (arPage : ArPage)
    (usPage : UsPage) : Except String ScrapeResult :=
  if product_key == "argentina_jersey" then
    .ok { ar_price := adidas_scrape_argentina arPage adidas_fallback_AR,
          us_price := adidas_scrape_us usPage adidas_fallback_US }
  else
    .error "ValueError: Unknown product key"

/-- Per-product constants of one reconciliation run. -/
structure ScraperCfg where
  scraper_name : String
  product_name : String
  source_name : String
  source_url : String
  fallback_US : ℚ
  fallback_AR : ℚ
deriving DecidableEq, Repr

/-- The dict returned by a successful run (rounded `ar_price_usd` omitted:
no claim consults it). -/
structure RunReturn where
  product : String
  us_price : ℚ
  ar_price : ℚ
  exchange_rate : ℚ
deriving DecidableEq, Repr

/-- Embeds the common body of `PriceService.scrape_nike_prices` and
`PriceService.scrape_adidas_prices` (src/services.py lines 85-149 and
151-215).  `committed` is the durable store on entry.  The audit row is
inserted and flushed first; the country/product lookups store their
(possibly `None`) results without dereferencing them; the source row is
get-or-created; then the scraper runs.  On a scraper exception the handler
calls `finish_scraper_run(run.id, False, 0, str(e))` and re-raises — and
`DatabaseManager.__exit__` then ROLLS BACK the whole session, so the
durable store is returned unchanged.  On scraper success the two price
rows are flushed (dereferencing the looked-up rows — `AttributeError` if a
lookup returned `None`, and `ZeroDivisionError` if the rate is 0, both of
which take the same except-and-rollback path), the run row is finished
with `success=True`, and `__exit__` commits. -/
def runScraper (committed : DBState) (now : Nat) (cfg : ScraperCfg)
    (scrapeRes : Except String ScrapeResult) (rate : ℚ) :
    Except String RunReturn × DBState :=
  let (run, cur1) := start_scraper_run committed cfg.scraper_name now
  let ous := findCountryByCode cur1 "US"
  let oar := findCountryByCode cur1 "AR"
  let oproduct := findProductByName cur1 cfg.product_name
  let (source, cur2) :=
    get_or_create_source cur1 cfg.source_name "scraping" (some cfg.source_url) none
  match scrapeRes with
  | .error e =>
      let _rolledBack := finish_scraper_run cur2 run.id false 0 (some e) now
      (.error e, committed)
  | .ok result =>
      match ous, oar, oproduct with
      | some us, some ar, some product =>
          if rate == 0 then
            (.error "ZeroDivisionError", committed)
          else
            let (_usRow, cur3) :=
              add_price cur2 product.id us.id source.id result.us_price "USD"
                (result.us_price == cfg.fallback_US) (some 1) (some result.us_price) now
            let (_arRow, cur4) :=
              add_price cur3 product.id ar.id source.id result.ar_price "ARS"
                (result.ar_price == cfg.fallback_AR) (some rate)
                (some (result.ar_price / rate)) now
            let cur5 := finish_scraper_run cur4 run.id true 1 none now
            (.ok { product := cfg.product_name, us_price := result.us_price,
                   ar_price := result.ar_price, exchange_rate := rate }, cur5)
      | _, _, _ =>
          (.error "AttributeError", committed)

/-- The constants of `PriceService.scrape_nike_prices`. -/
def nikeCfg : ScraperCfg :=
  { scraper_name := "Nike Scraper", product_name := "Nike Air Force 1",
    source_name := "Nike Website", source_url := "https://www.nike.com",
    fallback_US := nike_fallback_US, fallback_AR := nike_fallback_AR }

/-- The constants of `PriceService.scrape_adidas_prices`
(`fallback_prices['argentina_jersey']` from src/scrapers/adidas_scraper.py). -/
def adidasCfg : ScraperCfg :=
  { scraper_name := "Adidas Scraper", product_name := "Argentina Anniversary Jersey",
    source_name := "Adidas Website", source_url := "https://www.adidas.com",
    fallback_US := adidas_fallback_US, fallback_AR := adidas_fallback_AR }

/-- Embeds `PriceService.scrape_nike_prices`. -/
def scrape_nike_prices (committed : DBState) (now : Nat)
    (scrapeRes : Except String ScrapeResult) (rate : ℚ) :
    Except String RunReturn × DBState :=
  runScraper committed now nikeCfg scrapeRes rate

/-- Embeds `PriceService.scrape_adidas_prices`. -/
def scrape_adidas_prices (committed : DBState) (now : Nat)
    (scrapeRes : Except String ScrapeResult) (rate : ℚ) :
    Except String RunReturn × DBState :=
  runScraper committed now adidasCfg scrapeRes rate

/- ## Archival JSON layer (src/utils.py save_historical_data,
     src/cli.py save_to_json)

A JSON object is an association list from field names to field contents,
where a present key may carry JSON null (`none`) — the present-with-null /
absent distinction matters to the merge logic.  Field contents are numbers
or strings (the shapes occurring in the written snapshots). -/

/-- A JSON scalar as stored in the snapshot files. -/
inductive JVal where
  | num (q : ℚ)
  | str (s : String)
deriving DecidableEq, Repr

/-- A JSON object: present keys map to `some`/`none` (value / null). -/
abbrev JDict := List (String × Option JVal)

/-- Key lookup: `none` = key absent, `some none` = key present with null,
`some (some v)` = key present with value `v`. -/
def jget : JDict → String → Option (Option JVal)
  | [], _ => none
  | e :: tl, k => if e.1 == k then some e.2 else jget tl k

/-- Python `d[k] = v`: replace the (unique) binding in place when the key
is present, append otherwise. -/
def jset : JDict → String → Option JVal → JDict
  | [], k, v => [(k, v)]
  | e :: tl, k, v => if e.1 == k then (k, v) :: tl else e :: jset tl k v

/-- The field list the merge in `save_historical_data` iterates over
(src/utils.py line 51). -/
def mergeFieldList : List String :=
  ["us_price", "ar_price", "url_us", "url_ar", "ar_price_usd"]

/-- One iteration of the merge loop (src/utils.py lines 51-57): if the field
exists in `latest_data` but not in the new data, keep it; if the field is
None in the new data and exists in `latest_data`, use the old value. -/
def mergeStep (latest_data : JDict) (d : JDict) (field : String) : JDict :=
  match jget latest_data field, jget d field with
  | some lv, none => jset d field lv
  | some lv, some none => jset d field lv
  | _, _ => d

/-- Embeds the `latest.json` update of `save_historical_data`
(src/utils.py lines 27-61): the new data gets a `timestamp` field, then —
ONLY when the endpoint is exactly `nike` or `adidas` — the five listed
fields are merged from the previous `latest.json`; for every other
endpoint the timestamped new data replaces `latest.json` wholesale. -/
def save_historical_latest (endpoint : String) (latest_data data : JDict)
    (ts : String) : JDict :=
  let data_with_timestamp := jset data "timestamp" (some (.str ts))
  if endpoint == "nike" || endpoint == "adidas" then
    mergeFieldList.foldl (mergeStep latest_data) data_with_timestamp
  else
    data_with_timestamp

/-- Embeds the `latest.json` write of `cli.save_to_json` (src/cli.py lines
84-87): the timestamped data is dumped over `latest.json` unconditionally —
no merge with the previous contents at all. -/
def save_to_json_latest (data : JDict) (ts : String) : JDict :=
  if (jget data "timestamp").isSome then data
  else jset data "timestamp" (some (.str ts))

/- ## API result cache (src/api.py lines 27-77)

The module-level `cache` dict holds one slot per product plus a SINGLE
shared `last_update` timestamp, written by every product's store.  The two
`*_stored_at` fields are ghost instrumentation recording when each
product's own slot was last written; the code itself keeps no such
per-product time.  Cached payloads are abstracted to `Nat` tags (their
contents are never consulted by the cache logic). -/

/-- The `cache` dict of src/api.py plus ghost per-product store times. -/
structure ApiCache where
  nike : Option Nat
  adidas_jersey : Option Nat
  last_update : Option Nat
  nike_stored_at : Option Nat
  adidas_stored_at : Option Nat
deriving DecidableEq, Repr

/-- The initial module-level cache: every slot `None`. -/
def emptyCache : ApiCache :=
  { nike := none, adidas_jersey := none, last_update := none,
    nike_stored_at := none, adidas_stored_at := none }

/-- Embeds `is_cache_valid` (src/api.py lines 36-39):
`datetime.now() - cache["last_update"] < timedelta(hours=1)`, with times in
minutes. -/
def is_cache_valid (c : ApiCache) (now : Nat) : Bool :=
  match c.last_update with
  | none => false
  | some t => decide (now - t < 60)

/-- Observable outcome of one `/nike` (or `/adidas-jersey`) request. -/
structure CacheStep where
  result : Nat
  cache : ApiCache
  servedFromCache : Bool
deriving DecidableEq, Repr

/-- Embeds the `get_nike` handler's cache logic (src/api.py lines 49-77):
`if cache["nike"] and is_cache_valid(): return cache["nike"]`; otherwise
the pipeline re-runs (its formatted result is the input `fresh`), the slot
and the SHARED `last_update` are overwritten, and the fresh result is
returned. -/
def api_get_nike (c : ApiCache) (now : Nat) (fresh : Nat) : CacheStep :=
  match c.nike with
  | some r =>
      if is_cache_valid c now then
        { result := r, cache := c, servedFromCache := true }
      else
        { result := fresh,
          cache := { c with nike := some fresh, last_update := some now,
                            nike_stored_at := some now },
          servedFromCache := false }
  | none =>
      { result := fresh,
        cache := { c with nike := some fresh, last_update := some now,
                          nike_stored_at := some now },
        servedFromCache := false }

/-- Embeds the `get_adidas_jersey` handler's cache logic (src/api.py lines
79-107), identical up to the slot written. -/
def api_get_adidas_jersey (c : ApiCache) (now : Nat) (fresh : Nat) : CacheStep :=
  match c.adidas_jersey with
  | some r =>
      if is_cache_valid c now then
        { result := r, cache := c, servedFromCache := true }
      else
        { result := fresh,
          cache := { c with adidas_jersey := some fresh, last_update := some now,
                            adidas_stored_at := some now },
          servedFromCache := false }
  | none =>
      { result := fresh,
        cache := { c with adidas_jersey := some fresh, last_update := some now,
                          adidas_stored_at := some now },
        servedFromCache := false }

/- ## Manual price entry (src/services.py add_manual_price) and
     history query (src/services.py get_price_history, src/api.py)

Python raises `TypeError` when a call passes a keyword argument the callee
does not accept, and `AttributeError` when an attribute absent from a
class is read.  Both are embedded by comparing the literal name lists
copied from the source. -/

/-- The parameter names `DatabaseManager.add_price` actually accepts
(src/db_manager.py lines 88-90). -/
def add_price_param_names : List String :=
  ["self", "product_id", "country_id", "source_id", "value", "currency",
   "is_fallback", "exchange_rate", "usd_value"]

/-- The keyword arguments `PriceService.add_manual_price` passes to
`db.add_price` (src/services.py lines 311-323). -/
def add_manual_price_call_kwargs : List String :=
  ["product_id", "country_id", "source_id", "value", "currency",
   "is_fallback", "exchange_rate", "usd_value", "description", "image_url",
   "date_obtained"]

/-- The attribute names the `Price` declarative model defines
(src/models.py lines 89-106): the mapped columns plus the three
relationships. -/
def price_model_attr_names : List String :=
  ["id", "product_id", "country_id", "source_id", "value", "currency",
   "date_obtained", "is_fallback", "exchange_rate", "usd_value",
   "product", "country", "source"]

/-- The attributes `PriceService.get_price_history` reads from each Price
row when serializing it (src/services.py lines 261-272). -/
def history_serializer_attr_reads : List String :=
  ["value", "currency", "date_obtained", "usd_value", "exchange_rate",
   "is_fallback", "description", "image_url"]

/-- Result dict of a successful manual entry (the fields a claim consults). -/
structure ManualResult where
  product : String
  country : String
  value : ℚ
  currency : String
  date : Nat
deriving DecidableEq, Repr

/-- Embeds `PriceService.add_manual_price` (src/services.py lines 275-408).
Product and country are looked up by id (`ValueError` when absent, rolled
back); the "Manual Entry" source is get-or-created; for non-USD currencies
the rate comes from `get_exchange_rate_sync` (never raises; its value is
the input `sync_rate` — its ExchangeRate write happens in a separate,
independently committed session and is not part of this one); then the
code calls `db.add_price(...)` passing `description`, `image_url` and
`date_obtained` keyword arguments.  Python binds keyword arguments before
running the callee, so when the passed kwargs are not all among
`add_price_param_names` the call raises `TypeError`; the enclosing
`except` re-raises and `DatabaseManager.__exit__` rolls the session back,
leaving the durable store unchanged. -/
def add_manual_price (committed : DBState) (product_id country_id : Nat)
    (price_value : ℚ) (currency : String) (source_type : String)
    (sync_rate : ℚ) (date : Option Nat) (now : Nat) :
    Except PyErr ManualResult × DBState :=
  match findProductById committed product_id with
  | none => (.error .valueError, committed)
  | some product =>
    match findCountryById committed country_id with
    | none => (.error .valueError, committed)
    | some country =>
      let (source, db1) :=
        get_or_create_source committed "Manual Entry" source_type none
          (some "Manually entered price data")
      let exchange_rate : ℚ := if currency != "USD" then sync_rate else 1
      let usd_value : Option ℚ :=
        if currency != "USD" then
          (if exchange_rate == 0 then none else some (price_value / exchange_rate))
        else some price_value
      if add_manual_price_call_kwargs.all
          (fun k => add_price_param_names.contains k) then
        -- unreachable: the kwarg list has names add_price does not accept
        let (price, db2) :=
          add_price db1 product.id country.id source.id price_value currency
            false (some exchange_rate) usd_value (date.getD now)
        (.ok { product := product.name, country := country.name,
               value := price_value, currency := currency,
               date := price.date_obtained }, db2)
      else
        (.error .typeError, committed)

/-- Newest-first insertion by acquisition timestamp. -/
def insertByDateDesc (p : Price) : List Price → List Price
  | [] => [p]
  | q :: rest =>
      if q.date_obtained ≤ p.date_obtained then p :: q :: rest
      else q :: insertByDateDesc p rest

/-- Embeds `DatabaseManager.get_price_history` (src/db_manager.py lines
161-167): filter by product and country, order by `date_obtained`
descending, limit. -/
def db_get_price_history (db : DBState) (product_id country_id limit : Nat) :
    List Price :=
  ((db.prices.filter
      (fun p => p.product_id == product_id && p.country_id == country_id)).foldl
    (fun acc p => insertByDateDesc p acc) []).take limit

/-- Embeds the per-row serialization of `PriceService.get_price_history`
(src/services.py lines 261-272): each dict entry reads an attribute of the
Price row; reading `description` or `image_url` — attributes the model
does not define — raises `AttributeError`. -/
def serialize_history_price (p : Price) : Except PyErr Price :=
  if history_serializer_attr_reads.all
      (fun a => price_model_attr_names.contains a) then
    .ok p
  else
    .error .attributeError

/-- Embeds `PriceService.get_price_history` (src/services.py lines
241-273): product by name, country by code (each `ValueError` when
absent), then the db query and the row-by-row serialization — which raises
on the first row it touches. -/
def get_price_history_service (db : DBState) (product_name country_code : String)
    (limit : Nat) : Except PyErr (List Price) :=
  match findProductByName db product_name with
  | none => .error .valueError
  | some product =>
    match findCountryByCode db country_code with
    | none => .error .valueError
    | some country =>
      (db_get_price_history db product.id country.id limit).mapM
        serialize_history_price

/-- Embeds the `/history/{product}` handler (src/api.py lines 136-156): the
`product_map` translates the public identifiers to internal names and
rejects anything else. -/
def api_get_history (db : DBState) (product country : String) (limit : Nat) :
    Except PyErr (List Price) :=
  if product == "nike" then
    get_price_history_service db "Nike Air Force 1" country limit
  else if product == "adidas-jersey" then
    get_price_history_service db "Argentina Anniversary Jersey" country limit
  else
    .error .invalidProduct

/- ## Concrete reference data

The rows that `PriceService.setup_database` creates (ids as the embedded
autoincrement assigns them), used as concrete stores in the theorems. -/

/-- The United States row created by `setup_database`. -/
def usCountry : Country := { id := 1, name := "United States", code := "US", currency := "USD" }

/-- The Argentina row created by `setup_database`. -/
def arCountry : Country := { id := 2, name := "Argentina", code := "AR", currency := "ARS" }

/-- The Nike Air Force 1 product row. -/
def nikeProduct : Product := { id := 1, name := "Nike Air Force 1" }

/-- The Adidas jersey product row. -/
def jerseyProduct : Product := { id := 2, name := "Argentina Anniversary Jersey" }

/-- A store holding the reference rows and no prices, rates or runs yet. -/
def baseDB : DBState :=
  { countries := [usCountry, arCountry],
    products := [nikeProduct, jerseyProduct],
    sources := [], prices := [], rates := [], runs := [] }

/-- One ARS price row for Nike Air Force 1 in Argentina, as a pipeline run
would have persisted it. -/
def arStoredPrice : Price :=
  { id := 1, product_id := 1, country_id := 2, source_id := 1,
    value := 250000, currency := "ARS", date_obtained := 3,
    is_fallback := false, exchange_rate := some 1375,
    usd_value := some (250000 / 1375) }

/-- `baseDB` with one stored Argentina price row. -/
def dbWithOnePrice : DBState := { baseDB with prices := [arStoredPrice] }

/- ## Claim theorems -/

/-- C1: the claim says that when the scraper raises after the ScraperRun row
was created, the database durably contains that row with `success = false`
and the error message even though the exception is re-raised.  The code
does the opposite: the re-raise makes `DatabaseManager.__exit__` roll the
session back, discarding both the audit row and its failure update — for
every store, configuration and error, a failed run returns the store
unchanged, and concretely a failed Nike or Adidas run against the setup
store leaves NO ScraperRun row at all. -/
theorem c1_failed_run_rolled_back :
    (∀ (db : DBState) (now : Nat) (cfg : ScraperCfg) (e : String) (rate : ℚ),
        runScraper db now cfg (.error e) rate = (.error e, db)) ∧
    (scrape_nike_prices baseDB 5 (.error "boom") 1375).2.runs = [] ∧
    (scrape_adidas_prices baseDB 5 (.error "boom") 1375).2.runs = [] :=
  ⟨fun _ _ _ _ _ => rfl, rfl, rfl⟩

/-- C2: the claim says manual entry with existing product and country ids
succeeds and persists exactly one new Price row.  The code instead passes
`description`, `image_url` and `date_obtained` keyword arguments that
`DatabaseManager.add_price` does not accept, so the call raises
`TypeError`, the session rolls back, and no Price row is persisted: at the
claim's own input (product 1, country 2, 199999 ARS, no date) the
operation errors and the store is unchanged, with zero Price rows. -/
theorem c2_manual_entry_type_error :
    add_manual_price baseDB 1 2 199999 "ARS" "manual" 1375 none 5
      = (.error .typeError, baseDB) ∧
    (add_manual_price baseDB 1 2 199999 "ARS" "manual" 1375 none 5).2.prices = [] :=
  ⟨rfl, rfl⟩

/-- C3: the claim says a history query for product "nike", country "AR",
limit 5 returns the stored rows.  The serializer reads `description` and
`image_url` from each Price row — attributes the Price model does not
define — so with even one stored row the query raises `AttributeError`;
only an empty history returns (an empty list). -/
theorem c3_history_attribute_error :
    api_get_history dbWithOnePrice "nike" "AR" 5 = .error .attributeError ∧
    api_get_history baseDB "nike" "AR" 5 = .ok [] :=
  ⟨rfl, rfl⟩

/-- C5 counterexample: the claim fixes the failure default of every
exchange-rate fetch at 1375.0, but the legacy fetcher
`scrapers.get_dolar_price` — one of the claim's cited implementations —
returns 1000 on a failed fetch. -/
theorem c5_legacy_default_counterexample :
    get_dolar_price (.error "ConnectionError") = 1000 ∧ (1000 : ℚ) ≠ 1375 :=
  ⟨rfl, by norm_num⟩

/-- C5 amended: no exchange-rate fetcher ever raises; the service-layer
`get_exchange_rate` (and its sync twin) returns 1375.0 on a failed fetch
and also when the persisting session fails, and in both failure cases the
store is returned unchanged (no ExchangeRate row written); the legacy
`get_dolar_price` likewise never raises and never writes, but its failure
default is 1000. -/
theorem c5_fetch_failure_defaults :
    ∀ (db : DBState) (persistOk : Bool) (now : Nat) (e : String),
      get_exchange_rate db (.error e) persistOk now = (1375, db) ∧
      (∀ rate : ℚ, get_exchange_rate db (.ok rate) false now = (1375, db)) ∧
      get_dolar_price (.error e) = 1000 :=
  fun _ _ _ _ => ⟨rfl, fun _ => rfl, rfl⟩

/-- C10: when the HTTP fetch succeeds but the persisting session fails,
`get_exchange_rate` returns the fixed default 1375.0, discarding the
fetched rate; when both succeed it returns the fetched rate; and (for any
rate other than the default itself) the fetched rate is returned only when
the fetch produced it and the persist succeeded. -/
theorem c10_persist_failure_discards_rate :
    ∀ (db : DBState) (now : Nat) (rate : ℚ),
      (get_exchange_rate db (.ok rate) false now).1 = 1375 ∧
      (get_exchange_rate db (.ok rate) true now).1 = rate ∧
      (rate ≠ 1375 →
        ∀ (fetch : Except String ℚ) (persistOk : Bool),
          (get_exchange_rate db fetch persistOk now).1 = rate →
          fetch = .ok rate ∧ persistOk = true) := by
  intro db now rate
  refine ⟨rfl, rfl, ?_⟩
  intro hne fetch persistOk h
  match fetch with
  | .error e =>
      exact absurd h.symm hne
  | .ok v =>
      cases persistOk with
      | false => exact absurd h.symm hne
      | true =>
          have hv : v = rate := h
          exact ⟨by rw [hv], rfl⟩

/-- C10 witness: at the concrete store `baseDB`, rate 1400 and time 0, a
failed persist yields 1375 and the only way to observe 1400 is a
successful fetch of 1400 with a successful persist. -/
theorem c10_persist_failure_discards_rate_witness :
    (get_exchange_rate baseDB (.ok 1400) false 0).1 = 1375 ∧
    ((.ok 1400 : Except String ℚ) = .ok 1400 ∧ true = true) :=
  ⟨(c10_persist_failure_discards_rate baseDB 0 1400).1,
   (c10_persist_failure_discards_rate baseDB 0 1400).2.2 (by norm_num)
     (.ok 1400) true rfl⟩

/- ## Shape of a successful reconciliation run

Named abbreviations for the three rows a successful `runScraper` flushes,
so that the claim theorems can talk about the appended price rows. -/

/-- The session state after the audit-row insert. -/
def sessionAfterRun (db : DBState) (now : Nat) (cfg : ScraperCfg) : DBState :=
  (start_scraper_run db cfg.scraper_name now).2

/-- The source row the run resolves (get-or-create). -/
def runSourceRow (db : DBState) (now : Nat) (cfg : ScraperCfg) : Source :=
  (get_or_create_source (sessionAfterRun db now cfg) cfg.source_name "scraping"
    (some cfg.source_url) none).1

/-- The session state after the source get-or-create. -/
def sessionAfterSource (db : DBState) (now : Nat) (cfg : ScraperCfg) : DBState :=
  (get_or_create_source (sessionAfterRun db now cfg) cfg.source_name "scraping"
    (some cfg.source_url) none).2

/-- The US price row a successful run flushes. -/
def usRowOf (db : DBState) (now : Nat) (cfg : ScraperCfg) (result : ScrapeResult)
    (us : Country) (product : Product) : Price :=
  (add_price (sessionAfterSource db now cfg) product.id us.id
    (runSourceRow db now cfg).id result.us_price "USD"
    (result.us_price == cfg.fallback_US) (some 1) (some result.us_price) now).1

/-- The Argentina price row a successful run flushes. -/
def arRowOf (db : DBState) (now : Nat) (cfg : ScraperCfg) (result : ScrapeResult)
    (rate : ℚ) (us ar : Country) (product : Product) : Price :=
  (add_price
    (add_price (sessionAfterSource db now cfg) product.id us.id
      (runSourceRow db now cfg).id result.us_price "USD"
      (result.us_price == cfg.fallback_US) (some 1) (some result.us_price) now).2
    product.id ar.id (runSourceRow db now cfg).id result.ar_price "ARS"
    (result.ar_price == cfg.fallback_AR) (some rate)
    (some (result.ar_price / rate)) now).1

/-- The source get-or-create never touches the price table. -/
lemma get_or_create_source_prices (db : DBState) (n t : String)
    (u d : Option String) : (get_or_create_source db n t u d).2.prices = db.prices := by
  unfold get_or_create_source
  split <;> rfl

/-- On the success path (scraper returned, reference rows resolve, rate
nonzero) the committed store's price table is the old one plus the US row
and the AR row, in that order. -/
lemma runScraper_ok_prices (db : DBState) (now : Nat) (cfg : ScraperCfg)
    (result : ScrapeResult) (rate : ℚ) (us ar : Country) (product : Product)
    (hus : findCountryByCode db "US" = some us)
    (har : findCountryByCode db "AR" = some ar)
    (hp : findProductByName db cfg.product_name = some product)
    (hrate : rate ≠ 0) :
    (runScraper db now cfg (.ok result) rate).2.prices =
      db.prices ++ [usRowOf db now cfg result us product,
                    arRowOf db now cfg result rate us ar product] := by
  have hus1 : findCountryByCode (sessionAfterRun db now cfg) "US" = some us := hus
  have har1 : findCountryByCode (sessionAfterRun db now cfg) "AR" = some ar := har
  have hp1 : findProductByName (sessionAfterRun db now cfg) cfg.product_name
      = some product := hp
  have hrate1 : (rate == 0) = false := by
    simpa using hrate
  unfold runScraper
  simp only [sessionAfterRun, start_scraper_run] at hus1 har1 hp1
  simp only [start_scraper_run]
  rw [hus1, har1, hp1, hrate1]
  simp only [usRowOf, arRowOf, sessionAfterSource, sessionAfterRun, runSourceRow,
    start_scraper_run, add_price, finish_scraper_run]
  simp [List.append_assoc]
  exact get_or_create_source_prices _ _ _ _ _

/-- The Nike Argentina scrape returns its fallback argument whenever every
extraction stage fails. -/
lemma nike_scrape_argentina_total_failure (page : ArPage) (fb : ℚ)
    (hfail : totalExtractionFailure page = true) :
    nike_scrape_argentina page fb = fb := by
  unfold totalExtractionFailure at hfail
  unfold nike_scrape_argentina
  cases hnav : page.navOk with
  | false => simp [hnav]
  | true =>
      rw [hnav] at hfail
      simp only [Bool.not_true, Bool.false_or, Bool.and_eq_true,
        Option.isNone_iff_eq_none] at hfail
      obtain ⟨hs, hc⟩ := hfail
      simp [hnav, hs, hc, pyFalsy]

/-- The Adidas Argentina scrape returns its fallback argument whenever
every extraction stage fails. -/
lemma adidas_scrape_argentina_total_failure (page : ArPage) (fb : ℚ)
    (hfail : totalExtractionFailure page = true) :
    adidas_scrape_argentina page fb = fb := by
  unfold totalExtractionFailure at hfail
  unfold adidas_scrape_argentina
  cases hnav : page.navOk with
  | false => simp [hnav]
  | true =>
      rw [hnav] at hfail
      simp only [Bool.not_true, Bool.false_or, Bool.and_eq_true,
        Option.isNone_iff_eq_none] at hfail
      obtain ⟨hs, hc⟩ := hfail
      simp [hnav, hs, hc, pyFalsy]

/-- The Nike US scrape returns its fallback argument whenever every
extraction stage (selector, script evaluation) fails. -/
lemma nike_scrape_us_total_failure (page : UsPage) (fb : ℚ)
    (hfail : totalUsExtractionFailure page = true) :
    nike_scrape_us page fb = fb := by
  unfold totalUsExtractionFailure at hfail
  unfold nike_scrape_us
  cases hnav : page.navOk with
  | false => simp [hnav]
  | true =>
      rw [hnav] at hfail
      simp only [Bool.not_true, Bool.false_or, Bool.and_eq_true,
        Option.isNone_iff_eq_none] at hfail
      obtain ⟨hs, hj⟩ := hfail
      rcases hjs : page.jsEval with _ | js
      · simp [hnav, hs, hjs, pyFalsy]
      · rw [hjs] at hj
        simp only [jsStageFails, Option.isNone_iff_eq_none] at hj
        simp [hnav, hs, hjs, hj, pyFalsy]

/-- The Adidas US scrape returns its fallback argument whenever every
extraction stage (selector, script evaluation) fails. -/
lemma adidas_scrape_us_total_failure (page : UsPage) (fb : ℚ)
    (hfail : totalUsExtractionFailure page = true) :
    adidas_scrape_us page fb = fb := by
  unfold totalUsExtractionFailure at hfail
  unfold adidas_scrape_us
  cases hnav : page.navOk with
  | false => simp [hnav]
  | true =>
      rw [hnav] at hfail
      simp only [Bool.not_true, Bool.false_or, Bool.and_eq_true,
        Option.isNone_iff_eq_none] at hfail
      obtain ⟨hs, hj⟩ := hfail
      rcases hjs : page.jsEval with _ | js
      · simp [hnav, hs, hjs, pyFalsy]
      · rw [hjs] at hj
        simp only [jsStageFails, Option.isNone_iff_eq_none] at hj
        simp [hnav, hs, hjs, hj, pyFalsy]

/-- C4: for every product key and country — Nike `air_force_1` and Adidas
`argentina_jersey`, Argentina and US — when all extraction stages fail
(selector, content-regex, script-evaluation, including any navigation
error), the scraper returns its configured static fallback constant for
that (product, country) pair, and every price row the reconciliation run
then persists is flagged `is_fallback = true` by the service's
value-equality check against the same constants. -/
theorem c4_total_failure_fallback (arPage : ArPage) (usPage : UsPage)
    (db : DBState) (now : Nat) (rate : ℚ) (us ar : Country)
    (productN productA : Product)
    (hfailAr : totalExtractionFailure arPage = true)
    (hfailUs : totalUsExtractionFailure usPage = true)
    (hus : findCountryByCode db "US" = some us)
    (har : findCountryByCode db "AR" = some ar)
    (hpN : findProductByName db "Nike Air Force 1" = some productN)
    (hpA : findProductByName db "Argentina Anniversary Jersey" = some productA)
    (hrate : rate ≠ 0) :
    nike_scrape_argentina arPage nike_fallback_AR = nike_fallback_AR ∧
    nike_scrape_us usPage nike_fallback_US = nike_fallback_US ∧
    adidas_scrape_argentina arPage adidas_fallback_AR = adidas_fallback_AR ∧
    adidas_scrape_us usPage adidas_fallback_US = adidas_fallback_US ∧
    (∀ r ∈ (scrape_nike_prices db now
        (nike_scraper_scrape "air_force_1" arPage usPage) rate).2.prices,
      r ∉ db.prices → r.is_fallback = true) ∧
    (∀ r ∈ (scrape_adidas_prices db now
        (adidas_scraper_scrape "argentina_jersey" arPage usPage) rate).2.prices,
      r ∉ db.prices → r.is_fallback = true) := by
  have hNar := nike_scrape_argentina_total_failure arPage nike_fallback_AR hfailAr
  have hNus := nike_scrape_us_total_failure usPage nike_fallback_US hfailUs
  have hAar := adidas_scrape_argentina_total_failure arPage adidas_fallback_AR hfailAr
  have hAus := adidas_scrape_us_total_failure usPage adidas_fallback_US hfailUs
  refine ⟨hNar, hNus, hAar, hAus, ?_, ?_⟩
  · intro r hr hnew
    unfold scrape_nike_prices at hr
    rw [show nike_scraper_scrape "air_force_1" arPage usPage
        = Except.ok { ar_price := nike_scrape_argentina arPage nike_fallback_AR,
                      us_price := nike_scrape_us usPage nike_fallback_US } from rfl] at hr
    rw [runScraper_ok_prices db now nikeCfg _ rate us ar productN hus har hpN hrate] at hr
    rcases List.mem_append.mp hr with hold | hnew2
    · exact absurd hold hnew
    · simp only [List.mem_cons, List.not_mem_nil, or_false] at hnew2
      rcases hnew2 with h | h
      · subst h
        show (nike_scrape_us usPage nike_fallback_US == nike_fallback_US) = true
        rw [hNus, beq_self_eq_true]
      · subst h
        show (nike_scrape_argentina arPage nike_fallback_AR == nike_fallback_AR) = true
        rw [hNar, beq_self_eq_true]
  · intro r hr hnew
    unfold scrape_adidas_prices at hr
    rw [show adidas_scraper_scrape "argentina_jersey" arPage usPage
        = Except.ok { ar_price := adidas_scrape_argentina arPage adidas_fallback_AR,
                      us_price := adidas_scrape_us usPage adidas_fallback_US } from rfl] at hr
    rw [runScraper_ok_prices db now adidasCfg _ rate us ar productA hus har hpA hrate] at hr
    rcases List.mem_append.mp hr with hold | hnew2
    · exact absurd hold hnew
    · simp only [List.mem_cons, List.not_mem_nil, or_false] at hnew2
      rcases hnew2 with h | h
      · subst h
        show (adidas_scrape_us usPage adidas_fallback_US == adidas_fallback_US) = true
        rw [hAus, beq_self_eq_true]
      · subst h
        show (adidas_scrape_argentina arPage adidas_fallback_AR == adidas_fallback_AR) = true
        rw [hAar, beq_self_eq_true]

/-- An Argentina page whose navigation raised: every stage fails. -/
def c4ArPageW : ArPage := { navOk := false, selTexts := [], patternMatches := [] }

/-- A US page that loads but where the selector text has no digits and the
script probe returns a string with no dollar-prefixed number: every stage
fails, exercising the script-evaluation stage. -/
def c4UsPageW : UsPage :=
  { navOk := true, selTexts := [some "Price upon request"],
    jsEval := some "no dollar here" }

/-- The Nike scraper's result dict on those pages. -/
def c4NikeResultW : ScrapeResult :=
  { ar_price := nike_scrape_argentina c4ArPageW nike_fallback_AR,
    us_price := nike_scrape_us c4UsPageW nike_fallback_US }

/-- The Adidas scraper's result dict on those pages. -/
def c4AdidasResultW : ScrapeResult :=
  { ar_price := adidas_scrape_argentina c4ArPageW adidas_fallback_AR,
    us_price := adidas_scrape_us c4UsPageW adidas_fallback_US }

/-- C4 witness: on the concrete failing pages, all four (product, country)
scrapes return their fallback constants, and both runs' persisted rows —
the Nike Argentina row and the Adidas US row shown here — are
fallback-flagged. -/
theorem c4_total_failure_fallback_witness :
    nike_scrape_argentina c4ArPageW nike_fallback_AR = nike_fallback_AR ∧
    nike_scrape_us c4UsPageW nike_fallback_US = nike_fallback_US ∧
    adidas_scrape_argentina c4ArPageW adidas_fallback_AR = adidas_fallback_AR ∧
    adidas_scrape_us c4UsPageW adidas_fallback_US = adidas_fallback_US ∧
    (arRowOf baseDB 5 nikeCfg c4NikeResultW 1375
      usCountry arCountry nikeProduct).is_fallback = true ∧
    (usRowOf baseDB 5 adidasCfg c4AdidasResultW
      usCountry jerseyProduct).is_fallback = true := by
  have h := c4_total_failure_fallback c4ArPageW c4UsPageW baseDB 5 1375
    usCountry arCountry nikeProduct jerseyProduct (by decide) (by decide)
    rfl rfl rfl rfl (by norm_num)
  refine ⟨h.1, h.2.1, h.2.2.1, h.2.2.2.1, ?_, ?_⟩
  · refine h.2.2.2.2.1 _ ?_ ?_
    · unfold scrape_nike_prices
      rw [show nike_scraper_scrape "air_force_1" c4ArPageW c4UsPageW
          = Except.ok c4NikeResultW from rfl]
      rw [runScraper_ok_prices baseDB 5 nikeCfg c4NikeResultW 1375
        usCountry arCountry nikeProduct rfl rfl rfl (by norm_num)]
      simp
    · simp [baseDB]
  · refine h.2.2.2.2.2 _ ?_ ?_
    · unfold scrape_adidas_prices
      rw [show adidas_scraper_scrape "argentina_jersey" c4ArPageW c4UsPageW
          = Except.ok c4AdidasResultW from rfl]
      rw [runScraper_ok_prices baseDB 5 adidasCfg c4AdidasResultW 1375
        usCountry arCountry jerseyProduct rfl rfl rfl (by norm_num)]
      simp
    · simp [baseDB]

/-- C6: every price row a reconciliation run appends satisfies the USD
normalization invariant: its `usd_value` is its `value` divided by its
recorded `exchange_rate`, and a USD-denominated row records rate 1 with
`usd_value` equal to `value`.  (Manual entry never persists a row — see
the manual-entry claim — so pipeline rows are the only Price writers.) -/
theorem c6_usd_normalization (db : DBState) (now : Nat) (cfg : ScraperCfg)
    (result : ScrapeResult) (rate : ℚ) (us ar : Country) (product : Product)
    (hus : findCountryByCode db "US" = some us)
    (har : findCountryByCode db "AR" = some ar)
    (hp : findProductByName db cfg.product_name = some product)
    (hrate : rate ≠ 0) :
    ∀ r ∈ (runScraper db now cfg (.ok result) rate).2.prices, r ∉ db.prices →
      (∀ e : ℚ, r.exchange_rate = some e → r.usd_value = some (r.value / e)) ∧
      (r.currency = "USD" → r.exchange_rate = some 1 ∧ r.usd_value = some r.value) := by
  intro r hr hnew
  rw [runScraper_ok_prices db now cfg result rate us ar product hus har hp hrate] at hr
  rcases List.mem_append.mp hr with hold | hnew2
  · exact absurd hold hnew
  · simp only [List.mem_cons, List.not_mem_nil, or_false] at hnew2
    rcases hnew2 with h | h
    · subst h
      constructor
      · intro e he
        have he1 : some (1 : ℚ) = some e := he
        obtain rfl : (1 : ℚ) = e := Option.some.inj he1
        show (some result.us_price : Option ℚ) = some (result.us_price / 1)
        rw [div_one]
      · intro _
        exact ⟨rfl, rfl⟩
    · subst h
      constructor
      · intro e he
        have he1 : some rate = some e := he
        obtain rfl : rate = e := Option.some.inj he1
        exact rfl
      · intro hcur
        exact absurd hcur (by decide : ("ARS" : String) ≠ "USD")

/-- C6 witness: in the concrete Nike run over the setup store with rate
1375, the appended Argentina row's `usd_value` is its value divided by its
recorded rate. -/
theorem c6_usd_normalization_witness :
    (arRowOf baseDB 5 nikeCfg { ar_price := 250000, us_price := 120 } 1375
       usCountry arCountry nikeProduct).usd_value
      = some ((arRowOf baseDB 5 nikeCfg { ar_price := 250000, us_price := 120 } 1375
           usCountry arCountry nikeProduct).value / 1375) := by
  have h := c6_usd_normalization baseDB 5 nikeCfg
    { ar_price := 250000, us_price := 120 } 1375 usCountry arCountry nikeProduct
    rfl rfl rfl (by norm_num)
  refine (h _ ?_ ?_).1 1375 rfl
  · rw [runScraper_ok_prices baseDB 5 nikeCfg _ 1375 usCountry arCountry nikeProduct
      rfl rfl rfl (by norm_num)]
    simp
  · simp [baseDB]

/- ## Merge lemmas for the latest.json update -/

/-- Setting a key makes it present with the written value. -/
lemma jget_jset_same (d : JDict) (k : String) (v : Option JVal) :
    jget (jset d k v) k = some v := by
  induction d with
  | nil => simp [jset, jget]
  | cons e tl ih =>
      by_cases h : e.1 = k
      · simp [jset, jget, h]
      · simp [jset, jget, h, ih]

/-- Setting a key leaves every other key unchanged. -/
lemma jget_jset_other (d : JDict) (k : String) (v : Option JVal) (k' : String)
    (h : k' ≠ k) : jget (jset d k v) k' = jget d k' := by
  induction d with
  | nil => simp [jset, jget, Ne.symm h]
  | cons e tl ih =>
      by_cases he : e.1 = k
      · simp [jset, jget, he, h, Ne.symm h]
      · simp [jset, jget, he, ih]

/-- What one merge iteration leaves at its own field: the old value when
the new data misses the field or holds null there, the new data's entry
otherwise. -/
def mergedGet (lv dv : Option (Option JVal)) : Option (Option JVal) :=
  match lv, dv with
  | some l, none => some l
  | some l, some none => some l
  | _, dv => dv

/-- A merge iteration for one field leaves every other field unchanged. -/
lemma mergeStep_get_other (latest d : JDict) (field k : String)
    (h : k ≠ field) : jget (mergeStep latest d field) k = jget d k := by
  unfold mergeStep
  split
  · exact jget_jset_other d field _ k h
  · exact jget_jset_other d field _ k h
  · rfl

/-- A merge iteration at its own field behaves as `mergedGet`. -/
lemma mergeStep_get_self (latest d : JDict) (field : String) :
    jget (mergeStep latest d field) field
      = mergedGet (jget latest field) (jget d field) := by
  unfold mergeStep mergedGet
  rcases hl : jget latest field with _ | lv
  · simp [hl]
  · rcases hd : jget d field with _ | dv
    · simp [hl, hd, jget_jset_same]
    · rcases dv with _ | v
      · simp [hl, hd, jget_jset_same]
      · simp [hl, hd]

/-- Folding the merge over fields that do not include `k` leaves `k`
unchanged. -/
lemma foldl_mergeStep_not_mem (latest : JDict) (fields : List String)
    (d : JDict) (k : String) (h : k ∉ fields) :
    jget (fields.foldl (mergeStep latest) d) k = jget d k := by
  induction fields generalizing d with
  | nil => rfl
  | cons f fs ih =>
      simp only [List.foldl_cons]
      rw [ih _ (fun hm => h (List.mem_cons_of_mem f hm))]
      exact mergeStep_get_other latest d f k (fun he => h (he ▸ List.mem_cons_self f fs))

/-- Folding the merge over a duplicate-free field list acts at a member
field exactly as one merge iteration over the starting data. -/
lemma foldl_mergeStep_get (latest : JDict) (fields : List String) (d : JDict)
    (k : String) (hmem : k ∈ fields) (hnd : fields.Nodup) :
    jget (fields.foldl (mergeStep latest) d) k
      = mergedGet (jget latest k) (jget d k) := by
  induction fields generalizing d with
  | nil => cases hmem
  | cons f fs ih =>
      simp only [List.foldl_cons]
      rcases List.mem_cons.mp hmem with rfl | hmem2
      · have hknotin : k ∉ fs := (List.nodup_cons.mp hnd).1
        rw [foldl_mergeStep_not_mem latest fs _ k hknotin]
        exact mergeStep_get_self latest d k
      · have hkf : k ≠ f := fun he => (List.nodup_cons.mp hnd).1 (he ▸ hmem2)
        rw [ih _ hmem2 (List.nodup_cons.mp hnd).2]
        rw [mergeStep_get_other latest d f k hkf]

/-- Previous `latest.json` contents for the merge counterexample. -/
def c7latest : JDict := [("ar_price", some (.num 400)), ("us_price", some (.num 10))]

/-- New partial write for the merge counterexample. -/
def c7new : JDict := [("ar_price", some (.num 500))]

/-- C7 counterexample: the claim's fall-back behaviour does not hold for
every archival write.  Writing `{ar_price: 500}` over a `latest.json` of
`{ar_price: 400, us_price: 10}` erases `us_price` when the endpoint is the
manual-entry endpoint `manual/nike_air_force_1` (the merge branch only
fires for the literal endpoints `nike`/`adidas`), and the CLI's
`save_to_json` latest.json write never merges at all. -/
theorem c7_merge_counterexample :
    jget c7latest "us_price" = some (some (.num 10)) ∧
    jget c7new "us_price" = none ∧
    jget (save_historical_latest "manual/nike_air_force_1" c7latest c7new "T")
      "us_price" = none ∧
    jget (save_historical_latest "manual/nike_air_force_1" c7latest c7new "T")
      "ar_price" = some (some (.num 500)) ∧
    jget (save_to_json_latest c7new "T") "us_price" = none :=
  ⟨rfl, rfl, rfl, rfl, rfl⟩

/-- C7 amended: the fall-back merge holds only for the endpoints `nike` and
`adidas` and only for the five fields `us_price`, `ar_price`, `url_us`,
`url_ar`, `ar_price_usd`: there, a field present and non-null in the new
data wins, and a field missing or null in the new data takes its previous
`latest.json` value; all other fields and all other endpoints are plain
overwrites. -/
theorem c7_merge_amended (latest d : JDict) (ts ep field : String)
    (hep : ep = "nike" ∨ ep = "adidas")
    (hf : field ∈ mergeFieldList) :
    (∀ v : JVal, jget d field = some (some v) →
       jget (save_historical_latest ep latest d ts) field = some (some v)) ∧
    (∀ lv : Option JVal, jget latest field = some lv →
       (jget d field = none ∨ jget d field = some none) →
       jget (save_historical_latest ep latest d ts) field = some lv) := by
  have hts : field ≠ "timestamp" := by
    simp only [mergeFieldList, List.mem_cons, List.not_mem_nil, or_false] at hf
    rcases hf with rfl | rfl | rfl | rfl | rfl <;> decide
  have hepb : (ep == "nike" || ep == "adidas") = true := by
    rcases hep with rfl | rfl <;> decide
  have hfold : jget (mergeFieldList.foldl (mergeStep latest)
      (jset d "timestamp" (some (.str ts)))) field
      = mergedGet (jget latest field)
          (jget (jset d "timestamp" (some (.str ts))) field) :=
    foldl_mergeStep_get latest mergeFieldList _ field hf (by decide)
  have hdts : jget (jset d "timestamp" (some (.str ts))) field = jget d field :=
    jget_jset_other d "timestamp" _ field hts
  constructor
  · intro v hv
    unfold save_historical_latest
    rw [hepb]
    simp only [if_true]
    rw [hfold, hdts, hv]
    rcases hl : jget latest field with _ | lv <;> simp [mergedGet]
  · intro lv hl hd0
    unfold save_historical_latest
    rw [hepb]
    simp only [if_true]
    rw [hfold, hdts, hl]
    rcases hd0 with hd0 | hd0 <;> rw [hd0] <;> rfl

/-- C7 amended witness: at endpoint `nike`, the missing `us_price` falls
back to the previous value and the present `ar_price` wins. -/
theorem c7_merge_amended_witness :
    jget (save_historical_latest "nike" c7latest c7new "T") "us_price"
      = some (some (.num 10)) ∧
    jget (save_historical_latest "nike" c7latest c7new "T") "ar_price"
      = some (some (.num 500)) :=
  ⟨(c7_merge_amended c7latest c7new "T" "nike" "us_price" (Or.inl rfl)
      (by decide)).2 (some (.num 10)) rfl (Or.inl rfl),
   (c7_merge_amended c7latest c7new "T" "nike" "ar_price" (Or.inl rfl)
      (by decide)).1 (.num 500) rfl⟩

/-- A page whose first selector's text parses to the price 0 while the page
content holds a match for 123. -/
def c8page : ArPage :=
  { navOk := true, selTexts := [some "0"], patternMatches := [some "123"] }

/-- C8 counterexample: on `c8page` the selector stage parses successfully
(value 0, which breaks the selector loop), yet — because `0.0` is falsy in
the `if not ar_price:` guard — the content-regex stage IS attempted and its
value 123 replaces the selector's: the claim's "returns that value
immediately and the later stages are not attempted" fails. -/
theorem c8_zero_price_counterexample :
    selectorLoop c8page.selTexts = some 0 ∧
    ¬((scrape_nike_airforce_ar c8page).price = 0 ∧
      (scrape_nike_airforce_ar c8page).stage2Attempted = false) ∧
    (scrape_nike_airforce_ar c8page).price = 123 ∧
    (scrape_nike_airforce_ar c8page).stage2Attempted = true := by
  refine ⟨rfl, ?_, rfl, rfl⟩
  intro hc
  exact absurd hc.2 (by decide)

/-- C8 amended: if a selector's text parses to a NONZERO price, the
extraction returns exactly that value with the content-regex stage never
attempted (a parse yielding 0 breaks the selector loop but, being falsy,
still lets stage 2 run); and a selector timeout merely advances to the
next selector. -/
theorem c8_selector_short_circuit (page : ArPage) (v : ℚ)
    (hnav : page.navOk = true)
    (hsel : selectorLoop page.selTexts = some v)
    (hv : v ≠ 0) :
    scrape_nike_airforce_ar page =
      { price := v, stage2Attempted := false } ∧
    ∀ rest : List (Option String), selectorLoop (none :: rest) = selectorLoop rest := by
  refine ⟨?_, fun _ => rfl⟩
  unfold scrape_nike_airforce_ar
  rw [hnav]
  simp [hsel, pyFalsy, hv]

/-- C8 witness: a page whose first selector times out and whose second
selector shows "price: 150.000 ARS": the extraction returns 150000 without
attempting the content stage, even though the content has a match. -/
theorem c8_selector_short_circuit_witness :
    scrape_nike_airforce_ar
        { navOk := true, selTexts := [none, some "price: 150.000 ARS"],
          patternMatches := [some "999"] }
      = { price := 150000, stage2Attempted := false } :=
  (c8_selector_short_circuit _ 150000 rfl (by decide) (by norm_num)).1

/-- The cache after a `/nike` request at minute 0 (pipeline result 7)
followed by an `/adidas-jersey` request at minute 90 (pipeline result 8):
the nike slot still holds the result stored at minute 0, while the shared
`last_update` now reads 90. -/
def c9cache : ApiCache :=
  (api_get_adidas_jersey (api_get_nike emptyCache 0 7).cache 90 8).cache

/-- C9 counterexample: at minute 95 the `/nike` handler serves the cached
nike entry even though that product's own result was stored 95 minutes
earlier (far beyond the 1-hour window) — the adidas store at minute 90
refreshed the SHARED `last_update`, so the claim's per-product freshness
fails and no re-run happens. -/
theorem c9_stale_cache_counterexample :
    c9cache.nike_stored_at = some 0 ∧
    (api_get_nike c9cache 95 9).servedFromCache = true ∧
    (api_get_nike c9cache 95 9).result = 7 ∧
    ¬(95 - 0 < 60) := by
  refine ⟨rfl, rfl, rfl, by norm_num⟩

/-- C9 amended: a cached result is served exactly under the SHARED window:
the handler returns the stored entry when the slot is populated and the
most recent store of ANY product lies within the last hour; and whenever
the shared `last_update` is at least an hour old the pipeline re-runs and
both the slot and `last_update` are overwritten with the fresh result. -/
theorem c9_shared_window (c : ApiCache) (now fresh : Nat) :
    ((api_get_nike c now fresh).servedFromCache = true →
      (∃ r, c.nike = some r ∧ (api_get_nike c now fresh).result = r) ∧
      (∃ t, c.last_update = some t ∧ now - t < 60)) ∧
    (∀ t, c.last_update = some t → 60 ≤ now - t →
      (api_get_nike c now fresh).servedFromCache = false ∧
      (api_get_nike c now fresh).result = fresh ∧
      (api_get_nike c now fresh).cache.nike = some fresh ∧
      (api_get_nike c now fresh).cache.last_update = some now) := by
  constructor
  · intro hserved
    unfold api_get_nike is_cache_valid at hserved ⊢
    rcases hn : c.nike with _ | r
    · rw [hn] at hserved
      simp at hserved
    · rw [hn] at hserved
      rcases hlu : c.last_update with _ | t
      · rw [hlu] at hserved
        simp at hserved
      · rw [hlu] at hserved
        by_cases hlt : now - t < 60
        · simp [hlt]
        · simp [hlt] at hserved
  · intro t hlu hge
    have hvalid : is_cache_valid c now = false := by
      unfold is_cache_valid
      rw [hlu]
      simp
      omega
    unfold api_get_nike
    rcases hn : c.nike with _ | r
    · exact ⟨rfl, rfl, rfl, rfl⟩
    · rw [hvalid]
      exact ⟨rfl, rfl, rfl, rfl⟩

/-- C9 amended witness: at minute 200 the shared window (last store minute
90) has expired, so the `/nike` handler re-runs the pipeline and returns
the fresh result. -/
theorem c9_shared_window_witness :
    (api_get_nike c9cache 200 10).servedFromCache = false ∧
    (api_get_nike c9cache 200 10).result = 10 := by
  have h := (c9_shared_window c9cache 200 10).2 90 (by decide) (by norm_num)
  exact ⟨h.1, h.2.1⟩
